import Mathlib

/-!
Shallow embedding of the authorization and token-lifecycle subsystem of the
Task Management API (Node.js/Express/Mongoose), covering:

* `src/models/User.js`            — the user schema (fields, defaults, lowercased email)
* `src/repositories/UserRepository.js` and `BaseRepository.js`
                                  — `findByEmail`, `findById`, `updateRefreshToken`,
                                    `updateLastLogin` over a list-of-records store
* `src/services/AuthService.js`   — `register`, `login`, `refreshToken`, `logout`,
                                    `generateAccessToken`, `generateRefreshToken`,
                                    `verifyToken`, `sanitizeUser`
* `src/middlewares/authMiddleware.js` — `authenticate`
* `src/services/UserService.js`   — the `isAdminOrOwner` guard

JSON Web Tokens are embedded as records carrying their payload, the secret they
were signed with and their expiry instant; `jwtVerify` models `jsonwebtoken`'s
`jwt.verify`: a token signed with a different secret fails with
`JsonWebTokenError`, an expired one with `TokenExpiredError`.  bcrypt hashing is
embedded as an ideal one-way function: a hash remembers the plaintext it was
derived from and `comparePassword` checks equality, which is exactly the
success/failure interface the service code observes.  Times are abstract `Nat`
instants.  The Mongo store is a list of user records; `findOne` is `List.find?`
and `findByIdAndUpdate` maps the update over the list.
-/

deriving instance DecidableEq for Except

namespace TaskApi

/-- JS `String.prototype.toLowerCase`, as used by the mongoose `lowercase: true`
email option and by `findByEmail` (ASCII fragment, which covers email text). -/
def jsToLower (s : String) : String := String.mk (s.data.map Char.toLower)

/-- JS `String.prototype.trim`, as applied by the mongoose `trim: true` setter
on `name` and `email` (ASCII fragment). -/
def jsTrim (s : String) : String :=
  String.mk (((s.data.dropWhile Char.isWhitespace).reverse.dropWhile
    Char.isWhitespace).reverse)

/-- A character admitted by the `[^\s@]` class of the User.js email pattern:
neither whitespace nor `@`. -/
def validEmailChar (c : Char) : Bool := !c.isWhitespace && c != '@'

/-- Decidable model of the User.js email validator
`match: /^[^\s@]+@[^\s@]+\.[^\s@]+$/`: a nonempty run of non-whitespace,
non-`@` characters, a single `@`, then a tail of such characters containing a
dot with nonempty sides.  Since `.` itself lies in `[^\s@]`, the tail matches
the pattern exactly when all its characters are admitted and some dot sits
strictly inside it. -/
def emailRegexMatch (s : String) : Bool :=
  let cs := s.data
  let l := cs.takeWhile (fun c => c ≠ '@')
  match cs.dropWhile (fun c => c ≠ '@') with
  | [] => false
  | _ :: r =>
    !l.isEmpty && l.all validEmailChar && r.all validEmailChar &&
      ((r.drop 1).dropLast.contains '.')

/-! ## Error model: `src/utils/ApiError.js` and `config/constants.js` -/

/-- The `ApiError` from `src/utils/ApiError.js`: the externally observable shape of a
failure (HTTP status code, message, details; `details` defaults to `""`). -/
structure ApiError where
  statusCode : Nat
  message : String
  details : String := ""
deriving DecidableEq, Repr

/-- A mongoose `ValidationError`, thrown by `Model.create` when schema
validators fail; it carries the paths whose validators failed.
`AuthService.register` only logs and rethrows it unchanged (it is not an
`ApiError`). -/
structure ValidationError where
  paths : List String
deriving DecidableEq, Repr

/-- What `AuthService.register` can throw: the duplicate-email `ApiError`
raised by the service itself, or a `ValidationError` propagated from
`Model.create`. -/
inductive RegisterError where
  | api (e : ApiError)
  | validation (e : ValidationError)
deriving DecidableEq, Repr

namespace ERROR_MESSAGES

def UNAUTHORIZED : String := "Unauthorized access"
def FORBIDDEN : String := "Access forbidden"
def DUPLICATE_ENTRY : String := "Duplicate entry"
def INVALID_CREDENTIALS : String := "Invalid credentials"
def TOKEN_EXPIRED : String := "Token has expired"
def INVALID_TOKEN : String := "Invalid token"

end ERROR_MESSAGES

namespace USER_ROLES

def ADMIN : String := "admin"
def USER : String := "user"

end USER_ROLES

/-! ## JWT model -/

/-- The claims a token of this system can carry.  Access tokens embed
`{userId, email, role}`; refresh tokens embed `{userId}` only, so the optional
fields are `none` there. -/
structure JwtPayload where
  userId : Nat
  email : Option String := none
  role : Option String := none
deriving DecidableEq, Repr

/-- A signed JWT: its payload together with the secret it was signed with and
its expiry instant (issuance time plus configured lifetime). -/
structure SignedToken where
  payload : JwtPayload
  secret : String
  exp : Nat
deriving DecidableEq, Repr

/-- The two failure names `jsonwebtoken` raises that the service code
distinguishes (`error.name` checks). -/
inductive JwtError where
  | jsonWebTokenError
  | tokenExpiredError
deriving DecidableEq, Repr

/-- The `jwt.verify(token, secret)` at instant `now`: wrong secret (bad signature)
fails with `JsonWebTokenError`; a token past its expiry fails with
`TokenExpiredError`; otherwise the payload is returned. -/
def jwtVerify (tok : SignedToken) (secret : String) (now : Nat) :
    Except JwtError JwtPayload :=
  if tok.secret ≠ secret then .error .jsonWebTokenError
  else if tok.exp ≤ now then .error .tokenExpiredError
  else .ok tok.payload

/-! ## Password hashing (bcrypt, idealised) -/

/-- A bcrypt hash, idealised as remembering its plaintext: `comparePassword`
answers exactly "does the candidate match the hashed plaintext". -/
structure PwHash where
  ofPlain : String
deriving DecidableEq, Repr

/-! ## The user record: `src/models/User.js` -/

/-- A stored user document.  `password` and `refreshToken` are `select: false`
fields; `role` defaults to `'user'`, `isActive` to `true`, `lastLogin` to
`null`. -/
structure StoredUser where
  _id : Nat
  name : String
  email : String
  password : PwHash
  role : String
  isActive : Bool
  lastLogin : Option Nat
  refreshToken : Option SignedToken
deriving DecidableEq, Repr

/-- The `userSchema.methods.comparePassword`: bcrypt.compare of the candidate
against the stored hash. -/
def StoredUser.comparePassword (u : StoredUser) (candidate : String) : Bool :=
  candidate = u.password.ofPlain

/-- The sanitized user returned to callers: `sanitizeUser` deletes the
`password` and `refreshToken` keys, so the sanitized record has no such
fields. -/
structure SanitizedUser where
  _id : Nat
  name : String
  email : String
  role : String
  isActive : Bool
  lastLogin : Option Nat
deriving DecidableEq, Repr

/-! ## The credential store: `UserRepository` over `BaseRepository` -/

/-- The user collection, as the list of stored documents. -/
abbrev UserStore := List StoredUser

namespace UserRepository

/-- The `UserRepository.findByEmail`: `findOne({ email: email.toLowerCase() })`.
The presented email is lowercased before comparison with the stored field. -/
def findByEmail (store : UserStore) (email : String) : Option StoredUser :=
  store.find? (fun u => u.email = jsToLower email)

/-- The `BaseRepository.findById`: `findById(id)`. -/
def findById (store : UserStore) (id : Nat) : Option StoredUser :=
  store.find? (fun u => u._id = id)

/-- The `UserRepository.updateRefreshToken`: `findByIdAndUpdate(id, { refreshToken })`. -/
def updateRefreshToken (store : UserStore) (id : Nat)
    (tok : Option SignedToken) : UserStore :=
  store.map (fun u => if u._id = id then { u with refreshToken := tok } else u)

/-- The `UserRepository.updateLastLogin`: `findByIdAndUpdate(id, { lastLogin: new Date() })`. -/
def updateLastLogin (store : UserStore) (id : Nat) (now : Nat) : UserStore :=
  store.map (fun u => if u._id = id then { u with lastLogin := some now } else u)

end UserRepository

/-! ## Configuration (environment variables) -/

/-- The environment the subsystem consumes: the two signing secrets and the two
token lifetimes (defaults `7d` and `30d`, kept abstract as durations). -/
structure EnvConfig where
  jwtSecret : String
  jwtRefreshSecret : String
  jwtExpiresIn : Nat := 7
  jwtRefreshExpiresIn : Nat := 30
deriving DecidableEq, Repr

/-! ## AuthService: `src/services/AuthService.js` -/

namespace AuthService

/-- The `generateAccessToken`: sign `{userId, email, role}` with `JWT_SECRET`,
expiring `JWT_EXPIRES_IN` after issuance. -/
def generateAccessToken (cfg : EnvConfig) (user : StoredUser) (now : Nat) :
    SignedToken :=
  { payload := { userId := user._id, email := some user.email, role := some user.role }
    secret := cfg.jwtSecret
    exp := now + cfg.jwtExpiresIn }

/-- The `generateRefreshToken`: sign `{userId}` only with `JWT_REFRESH_SECRET`,
expiring `JWT_REFRESH_EXPIRES_IN` after issuance. -/
def generateRefreshToken (cfg : EnvConfig) (user : StoredUser) (now : Nat) :
    SignedToken :=
  { payload := { userId := user._id }
    secret := cfg.jwtRefreshSecret
    exp := now + cfg.jwtRefreshExpiresIn }

/-- The `sanitizeUser`: copy the record and delete `password` and `refreshToken`. -/
def sanitizeUser (u : StoredUser) : SanitizedUser :=
  { _id := u._id, name := u.name, email := u.email, role := u.role
    isActive := u.isActive, lastLogin := u.lastLogin }

/-- Success shape of `login` (also of `register`): sanitized user plus both
tokens. -/
structure LoginResult where
  user : SanitizedUser
  accessToken : SignedToken
  refreshToken : SignedToken
deriving DecidableEq, Repr

/-- The `AuthService.login(email, password)`.  Branch order as in the source:
user lookup (`findByEmail(email, true)`), then the `isActive` check, then the
password comparison; on success both tokens are issued, the refresh token is
persisted, `lastLogin` is updated, and the sanitized in-memory record is
returned.  The pair threads the store: errors leave it unchanged. -/
def login (cfg : EnvConfig) (store : UserStore) (now : Nat)
    (email password : String) : Except ApiError LoginResult × UserStore :=
  match UserRepository.findByEmail store email with
  | none => (.error { statusCode := 401, message := ERROR_MESSAGES.INVALID_CREDENTIALS }, store)
  | some user =>
    if !user.isActive then
      (.error { statusCode := 403, message := ERROR_MESSAGES.FORBIDDEN
                details := "Account is deactivated" }, store)
    else if !(user.comparePassword password) then
      (.error { statusCode := 401, message := ERROR_MESSAGES.INVALID_CREDENTIALS }, store)
    else
      let accessToken := generateAccessToken cfg user now
      let refreshTok := generateRefreshToken cfg user now
      let store1 := UserRepository.updateRefreshToken store user._id (some refreshTok)
      let store2 := UserRepository.updateLastLogin store1 user._id now
      (.ok { user := sanitizeUser user, accessToken := accessToken, refreshToken := refreshTok },
       store2)

/-- The data a caller supplies to `register` (after any external validation):
`role` is optional; the schema default `'user'` applies only when it is
absent. -/
structure RegisterInput where
  name : String
  email : String
  password : String
  role : Option String := none
deriving DecidableEq, Repr

/-- The schema validation `mongoose.Model.create` runs on a new user document
(User.js lines 11-39), applied after the `trim`/`lowercase` setters and before
the password-hashing pre-save hook: `name` required with minlength 2 and
maxlength 50, `email` required and matching the email pattern, `password`
required with minlength 8, and `role` constrained to the `{admin, user}` enum
when supplied (the default applies, and the enum check is skipped, when it is
absent).  Returns the paths that fail, in schema order; an empty list means
the document validates. -/
def validateNewUser (data : RegisterInput) : List String :=
  (if 2 ≤ (jsTrim data.name).length ∧ (jsTrim data.name).length ≤ 50 then []
   else ["name"]) ++
  (if emailRegexMatch (jsToLower (jsTrim data.email)) then [] else ["email"]) ++
  (if 8 ≤ data.password.length then [] else ["password"]) ++
  (match data.role with
   | none => []
   | some r => if r = USER_ROLES.ADMIN ∨ r = USER_ROLES.USER then [] else ["role"])

/-- The `BaseRepository.create` via `mongoose.Model.create`: the setters trim
the name and trim/lowercase the email, the schema validators run — a failure
throws `ValidationError` and nothing is persisted — then the pre-save hook
hashes the password, the `role`, `isActive` and `lastLogin` defaults apply,
and a fresh id is assigned. -/
def createUser (freshId : Nat) (data : RegisterInput) :
    Except ValidationError StoredUser :=
  match validateNewUser data with
  | [] => .ok
      { _id := freshId
        name := jsTrim data.name
        email := jsToLower (jsTrim data.email)
        password := { ofPlain := data.password }
        role := data.role.getD USER_ROLES.USER
        isActive := true
        lastLogin := none
        refreshToken := none }
  | errs => .error { paths := errs }

/-- The `AuthService.register(userData)`: duplicate-email check via
`findByEmail`, then `create` with the caller-supplied data as given — a
`ValidationError` from `create` propagates unchanged through the rethrowing
`catch` — then issue both tokens, persist the refresh token and update
`lastLogin`. -/
def register (cfg : EnvConfig) (store : UserStore) (now freshId : Nat)
    (userData : RegisterInput) : Except RegisterError LoginResult × UserStore :=
  match UserRepository.findByEmail store userData.email with
  | some _ =>
      (.error (.api { statusCode := 409, message := ERROR_MESSAGES.DUPLICATE_ENTRY
                      details := "Email already registered" }), store)
  | none =>
    match createUser freshId userData with
    | .error v => (.error (.validation v), store)
    | .ok user =>
      let store1 := store ++ [user]
      let accessToken := generateAccessToken cfg user now
      let refreshTok := generateRefreshToken cfg user now
      let store2 := UserRepository.updateRefreshToken store1 user._id (some refreshTok)
      let store3 := UserRepository.updateLastLogin store2 user._id now
      (.ok { user := sanitizeUser user, accessToken := accessToken, refreshToken := refreshTok },
       store3)

/-- The `AuthService.refreshToken(refreshToken)`: verify with `JWT_REFRESH_SECRET`
(the `catch` maps `JsonWebTokenError` to the invalid-token `ApiError` and
`TokenExpiredError` to the expired-token one), look the user up by the payload
userId, reject a missing or inactive user as invalid-token, and on success
issue a new access token only.  No store write occurs on any path. -/
def refreshToken (cfg : EnvConfig) (store : UserStore) (now : Nat)
    (tok : SignedToken) : Except ApiError SignedToken × UserStore :=
  match jwtVerify tok cfg.jwtRefreshSecret now with
  | .error .jsonWebTokenError =>
      (.error { statusCode := 401, message := ERROR_MESSAGES.INVALID_TOKEN }, store)
  | .error .tokenExpiredError =>
      (.error { statusCode := 401, message := ERROR_MESSAGES.TOKEN_EXPIRED }, store)
  | .ok decoded =>
    match UserRepository.findById store decoded.userId with
    | none => (.error { statusCode := 401, message := ERROR_MESSAGES.INVALID_TOKEN }, store)
    | some user =>
      if !user.isActive then
        (.error { statusCode := 401, message := ERROR_MESSAGES.INVALID_TOKEN }, store)
      else
        (.ok (generateAccessToken cfg user now), store)

/-- The `AuthService.logout(userId)`: unconditionally set the stored refresh token
to `null`; always succeeds with the logout message. -/
def logout (store : UserStore) (userId : Nat) : String × UserStore :=
  ("Logout successful", UserRepository.updateRefreshToken store userId none)

/-- The `AuthService.verifyToken(token)`: `jwt.verify` with `JWT_SECRET`, with the
same error-name-to-`ApiError` mapping as `refreshToken`. -/
def verifyToken (cfg : EnvConfig) (now : Nat) (tok : SignedToken) :
    Except ApiError JwtPayload :=
  match jwtVerify tok cfg.jwtSecret now with
  | .error .jsonWebTokenError =>
      .error { statusCode := 401, message := ERROR_MESSAGES.INVALID_TOKEN }
  | .error .tokenExpiredError =>
      .error { statusCode := 401, message := ERROR_MESSAGES.TOKEN_EXPIRED }
  | .ok decoded => .ok decoded

end AuthService

/-! ## The authentication middleware: `src/middlewares/authMiddleware.js` -/

/-- The `Authorization` header value, as the middleware discriminates it:
either of the form `Bearer <token>` (carrying the token), or any other string
(which fails the `startsWith('Bearer ')` test). -/
inductive AuthHeaderVal where
  | bearer (tok : SignedToken)
  | other
deriving DecidableEq, Repr

/-- The identity `authenticate` attaches to the request: exactly
`{userId, email, role}`. -/
structure ReqUser where
  userId : Nat
  email : String
  role : String
deriving DecidableEq, Repr

/-- The `authenticate`: require a `Bearer` header, verify the access token with
`JWT_SECRET` (mapping `JsonWebTokenError`/`TokenExpiredError` as in the
source `catch`), load the user by the payload userId, reject a missing user
with 401 and an inactive one with 403, and on success attach
`{userId, email, role}`.  The store is threaded unchanged: the middleware
performs no write. -/
def authenticate (cfg : EnvConfig) (store : UserStore) (now : Nat)
    (header : Option AuthHeaderVal) : Except ApiError ReqUser × UserStore :=
  match header with
  | none =>
      (.error { statusCode := 401, message := ERROR_MESSAGES.UNAUTHORIZED
                details := "No token provided" }, store)
  | some .other =>
      (.error { statusCode := 401, message := ERROR_MESSAGES.UNAUTHORIZED
                details := "No token provided" }, store)
  | some (.bearer tok) =>
    match jwtVerify tok cfg.jwtSecret now with
    | .error .jsonWebTokenError =>
        (.error { statusCode := 401, message := ERROR_MESSAGES.INVALID_TOKEN }, store)
    | .error .tokenExpiredError =>
        (.error { statusCode := 401, message := ERROR_MESSAGES.TOKEN_EXPIRED }, store)
    | .ok decoded =>
      match UserRepository.findById store decoded.userId with
      | none =>
          (.error { statusCode := 401, message := ERROR_MESSAGES.UNAUTHORIZED
                    details := "User not found" }, store)
      | some user =>
        if !user.isActive then
          (.error { statusCode := 403, message := ERROR_MESSAGES.FORBIDDEN
                    details := "Account is deactivated" }, store)
        else
          (.ok { userId := user._id, email := user.email, role := user.role }, store)

/-! ## The ownership guard: `isAdminOrOwner` in `src/services/UserService.js` -/

/-- What a run of the `isAdminOrOwner` middleware does: call `next()`, throw an
`ApiError`, or abort with a JS runtime `TypeError` (from calling a method on
`null`/`undefined`). -/
inductive GuardOutcome where
  | next
  | apiError (e : ApiError)
  | typeError
deriving DecidableEq, Repr

/-- The `isAdminOrOwner(getResourceUserId)`: 401 without an attached identity;
admin bypasses; otherwise the resolver's result is compared by
`req.user.userId.toString() !== resourceUserId.toString()` — when the resolver
returned `null`/`undefined` (`resolved = none`) that `.toString()` call throws
a runtime `TypeError`; a differing owner id yields the 403 `ApiError`. -/
def isAdminOrOwner (reqUser : Option ReqUser) (resolved : Option Nat) :
    GuardOutcome :=
  match reqUser with
  | none => .apiError { statusCode := 401, message := ERROR_MESSAGES.UNAUTHORIZED }
  | some u =>
    if u.role = USER_ROLES.ADMIN then .next
    else
      match resolved with
      | none => .typeError
      | some ownerId =>
        if u.userId ≠ ownerId then
          .apiError { statusCode := 403, message := ERROR_MESSAGES.FORBIDDEN
                      details := "You can only access your own resources" }
        else .next

/-! ## Helper lemmas about the store operations -/

/-- Looking a user up by id after `updateRefreshToken` returns the looked-up
record with only its `refreshToken` field rewritten (the update never changes
`_id`). -/
theorem findById_updateRefreshToken (store : UserStore) (id : Nat)
    (tok : Option SignedToken) (id' : Nat) :
    UserRepository.findById (UserRepository.updateRefreshToken store id tok) id' =
      (UserRepository.findById store id').map
        (fun u => if u._id = id then { u with refreshToken := tok } else u) := by
  unfold UserRepository.findById UserRepository.updateRefreshToken
  rw [List.find?_map]
  have hp : ((fun u : StoredUser => decide (u._id = id')) ∘
      (fun u => if u._id = id then { u with refreshToken := tok } else u)) =
      fun u : StoredUser => decide (u._id = id') := by
    funext u
    by_cases hid : u._id = id <;> simp [hid]
  rw [hp]

/-- Looking a user up by id after `updateLastLogin` returns the looked-up
record with only its `lastLogin` field rewritten. -/
theorem findById_updateLastLogin (store : UserStore) (id : Nat) (now : Nat)
    (id' : Nat) :
    UserRepository.findById (UserRepository.updateLastLogin store id now) id' =
      (UserRepository.findById store id').map
        (fun u => if u._id = id then { u with lastLogin := some now } else u) := by
  unfold UserRepository.findById UserRepository.updateLastLogin
  rw [List.find?_map]
  have hp : ((fun u : StoredUser => decide (u._id = id')) ∘
      (fun u => if u._id = id then { u with lastLogin := some now } else u)) =
      fun u : StoredUser => decide (u._id = id') := by
    funext u
    by_cases hid : u._id = id <;> simp [hid]
  rw [hp]

/-! ## Named error values (the observable shapes from §7 of the spec) -/

/-- The `InvalidCredentialsError`: `new ApiError(401, INVALID_CREDENTIALS)`. -/
def invalidCredentialsError : ApiError :=
  { statusCode := 401, message := ERROR_MESSAGES.INVALID_CREDENTIALS }

/-- The `AccountDeactivatedError`: `new ApiError(403, FORBIDDEN, 'Account is deactivated')`. -/
def accountDeactivatedError : ApiError :=
  { statusCode := 403, message := ERROR_MESSAGES.FORBIDDEN
    details := "Account is deactivated" }

/-- The `InvalidTokenError`: `new ApiError(401, INVALID_TOKEN)`. -/
def invalidTokenError : ApiError :=
  { statusCode := 401, message := ERROR_MESSAGES.INVALID_TOKEN }

/-- The `DuplicateEmailError`: `new ApiError(409, DUPLICATE_ENTRY, 'Email already registered')`. -/
def duplicateEmailError : ApiError :=
  { statusCode := 409, message := ERROR_MESSAGES.DUPLICATE_ENTRY
    details := "Email already registered" }

/-- The `UnauthorizedError` for a missing or malformed `Authorization` header. -/
def noTokenError : ApiError :=
  { statusCode := 401, message := ERROR_MESSAGES.UNAUTHORIZED
    details := "No token provided" }

/-- The `UnauthorizedError` when the token's userId resolves to no user. -/
def userNotFoundError : ApiError :=
  { statusCode := 401, message := ERROR_MESSAGES.UNAUTHORIZED
    details := "User not found" }

/-! ## Concrete fixtures used by witnesses and counterexamples -/

/-- A configuration with distinct access and refresh secrets. -/
def cfg1 : EnvConfig := { jwtSecret := "access-secret", jwtRefreshSecret := "refresh-secret" }

/-- An active stored user. -/
def activeUser : StoredUser :=
  { _id := 1, name := "Alice", email := "a@x.com"
    password := { ofPlain := "Secret@123" }, role := "user"
    isActive := true, lastLogin := none, refreshToken := none }

/-- A deactivated stored user. -/
def inactiveUser : StoredUser :=
  { _id := 2, name := "Bob", email := "b@x.com"
    password := { ofPlain := "Secret@123" }, role := "user"
    isActive := false, lastLogin := none, refreshToken := none }

/-! ## Claims -/

/-- Claim C4 — frame effect of `AuthService.refreshToken`: on every path,
successful or failing, the operation writes nothing to the credential store:
the stored `refreshToken`, `lastLogin` and every other field of every user
record are identical before and after (the whole store is returned unchanged);
the only success output is the newly issued access token, per the result
type. -/
theorem c4_refresh_writes_nothing (cfg : EnvConfig) (store : UserStore)
    (now : Nat) (tok : SignedToken) :
    (AuthService.refreshToken cfg store now tok).2 = store := by
  unfold AuthService.refreshToken
  split <;> try rfl
  split <;> try rfl
  split <;> rfl

/-- Claim C9 — for a non-admin caller, `isAdminOrOwner` aborts with a runtime
`TypeError` (from `resourceUserId.toString()` on `null`/`undefined`) when the
caller-supplied resolver returns no owner, and reaches the 403 `ForbiddenError`
exactly when the resolver returns an owner id different from the caller's
userId. -/
theorem c9_null_owner_type_error (ident : ReqUser) (ownerId : Nat)
    (hrole : ident.role ≠ USER_ROLES.ADMIN) :
    isAdminOrOwner (some ident) none = GuardOutcome.typeError ∧
    (isAdminOrOwner (some ident) (some ownerId) =
        GuardOutcome.apiError { statusCode := 403, message := ERROR_MESSAGES.FORBIDDEN
                                details := "You can only access your own resources" } ↔
      ident.userId ≠ ownerId) := by
  constructor
  · simp [isAdminOrOwner, hrole]
  · by_cases h : ident.userId = ownerId <;> simp [isAdminOrOwner, hrole, h]

/-- Witness for C9 at a concrete non-admin identity and owner id. -/
theorem c9_null_owner_type_error_witness :
    ({ userId := 1, email := "a@x.com", role := "user" } : ReqUser).role ≠ USER_ROLES.ADMIN ∧
    (isAdminOrOwner (some { userId := 1, email := "a@x.com", role := "user" }) none =
        GuardOutcome.typeError ∧
      (isAdminOrOwner (some { userId := 1, email := "a@x.com", role := "user" }) (some 7) =
          GuardOutcome.apiError { statusCode := 403, message := ERROR_MESSAGES.FORBIDDEN
                                  details := "You can only access your own resources" } ↔
        ({ userId := 1, email := "a@x.com", role := "user" } : ReqUser).userId ≠ 7)) :=
  ⟨by decide,
   c9_null_owner_type_error { userId := 1, email := "a@x.com", role := "user" } 7 (by decide)⟩

/-- Claim C5 — secret isolation.  When the access secret and the refresh secret
differ: a token produced by `generateAccessToken` fails the refresh-side
verification inside `AuthService.refreshToken` with the invalid-token
`ApiError`; a token produced by `generateRefreshToken` fails the access-side
`AuthService.verifyToken` and the `authenticate` middleware with the same
invalid-token `ApiError`. -/
theorem c5_secret_isolation (cfg : EnvConfig) (store : UserStore)
    (u : StoredUser) (t now : Nat)
    (hsec : cfg.jwtSecret ≠ cfg.jwtRefreshSecret) :
    (AuthService.refreshToken cfg store now
        (AuthService.generateAccessToken cfg u t)).1 =
      Except.error invalidTokenError ∧
    AuthService.verifyToken cfg now (AuthService.generateRefreshToken cfg u t) =
      Except.error invalidTokenError ∧
    (authenticate cfg store now
        (some (.bearer (AuthService.generateRefreshToken cfg u t)))).1 =
      Except.error invalidTokenError := by
  have hsec' : cfg.jwtRefreshSecret ≠ cfg.jwtSecret := Ne.symm hsec
  refine ⟨?_, ?_, ?_⟩ <;>
    simp [AuthService.refreshToken, AuthService.verifyToken, authenticate,
          jwtVerify, AuthService.generateAccessToken,
          AuthService.generateRefreshToken, invalidTokenError, hsec, hsec']

/-- Witness for C5 at a concrete configuration with distinct secrets. -/
theorem c5_secret_isolation_witness :
    cfg1.jwtSecret ≠ cfg1.jwtRefreshSecret ∧
    ((AuthService.refreshToken cfg1 [activeUser] 0
        (AuthService.generateAccessToken cfg1 activeUser 0)).1 =
      Except.error invalidTokenError ∧
    AuthService.verifyToken cfg1 0 (AuthService.generateRefreshToken cfg1 activeUser 0) =
      Except.error invalidTokenError ∧
    (authenticate cfg1 [activeUser] 0
        (some (.bearer (AuthService.generateRefreshToken cfg1 activeUser 0)))).1 =
      Except.error invalidTokenError) :=
  ⟨by decide, c5_secret_isolation cfg1 [activeUser] activeUser 0 0 (by decide)⟩

/-- Claim C1, counterexample — the claim as stated is false on the code: `login`
checks `isActive` before comparing the password, so a deactivated user
presented with a NON-matching password still fails with the 403
`AccountDeactivatedError`, where the claim demands `InvalidCredentialsError`
for every password-mismatch case. -/
theorem c1_counterexample :
    inactiveUser.comparePassword "wrongpass" = false ∧
    inactiveUser.isActive = false ∧
    (AuthService.login cfg1 [inactiveUser] 0 "b@x.com" "wrongpass").1 =
      Except.error accountDeactivatedError ∧
    (AuthService.login cfg1 [inactiveUser] 0 "b@x.com" "wrongpass").1 ≠
      Except.error invalidCredentialsError := by
  refine ⟨by decide, by decide, by decide, by decide⟩

/-- Claim C1 as amended — `login` fails with `AccountDeactivatedError` exactly
when the user with that email exists and `isActive = false`, regardless of the
candidate password; it fails with `InvalidCredentialsError` exactly when the
email is not found, or the user exists, is active, and the password
mismatches. -/
theorem c1_login_error_taxonomy (cfg : EnvConfig) (store : UserStore)
    (now : Nat) (email password : String) :
    ((AuthService.login cfg store now email password).1 =
        Except.error accountDeactivatedError ↔
      ∃ u, UserRepository.findByEmail store email = some u ∧ u.isActive = false) ∧
    ((AuthService.login cfg store now email password).1 =
        Except.error invalidCredentialsError ↔
      (UserRepository.findByEmail store email = none ∨
        ∃ u, UserRepository.findByEmail store email = some u ∧ u.isActive = true ∧
          u.comparePassword password = false)) := by
  unfold AuthService.login
  cases hfind : UserRepository.findByEmail store email with
  | none =>
    simp [hfind, accountDeactivatedError, invalidCredentialsError, ApiError.mk.injEq]
  | some u =>
    cases hact : u.isActive with
    | false =>
      simp [hfind, hact, accountDeactivatedError, invalidCredentialsError,
            ApiError.mk.injEq, ERROR_MESSAGES.FORBIDDEN, ERROR_MESSAGES.INVALID_CREDENTIALS]
    | true =>
      cases hpw : u.comparePassword password with
      | false =>
        simp [hfind, hact, hpw, accountDeactivatedError, invalidCredentialsError,
              ApiError.mk.injEq, ERROR_MESSAGES.FORBIDDEN, ERROR_MESSAGES.INVALID_CREDENTIALS]
      | true =>
        simp [hfind, hact, hpw, accountDeactivatedError, invalidCredentialsError]

/-- Claim C3 — indistinguishability of the two credential failures: a login with
an email absent from the store and a login with an existing active user's email
but a mismatching password produce the very same `ApiError` value (same status
code, same message, same empty details). -/
theorem c3_credential_failures_indistinguishable (cfg : EnvConfig)
    (store : UserStore) (now : Nat) (e1 p1 e2 p2 : String) (u2 : StoredUser)
    (h1 : UserRepository.findByEmail store e1 = none)
    (h2 : UserRepository.findByEmail store e2 = some u2)
    (hact : u2.isActive = true)
    (hpw : u2.comparePassword p2 = false) :
    (AuthService.login cfg store now e1 p1).1 =
      (AuthService.login cfg store now e2 p2).1 ∧
    (AuthService.login cfg store now e1 p1).1 =
      Except.error invalidCredentialsError := by
  unfold AuthService.login
  simp [h1, h2, hact, hpw, invalidCredentialsError]

/-- Witness for C3: a store holding one active user; a lookup miss and a wrong
password against that user yield the identical error value. -/
theorem c3_credential_failures_indistinguishable_witness :
    UserRepository.findByEmail [activeUser] "nobody@x.com" = none ∧
    UserRepository.findByEmail [activeUser] "a@x.com" = some activeUser ∧
    activeUser.isActive = true ∧
    activeUser.comparePassword "wrongpass" = false ∧
    ((AuthService.login cfg1 [activeUser] 0 "nobody@x.com" "whatever").1 =
      (AuthService.login cfg1 [activeUser] 0 "a@x.com" "wrongpass").1 ∧
    (AuthService.login cfg1 [activeUser] 0 "nobody@x.com" "whatever").1 =
      Except.error invalidCredentialsError) :=
  ⟨by decide, by decide, by decide, by decide,
   c3_credential_failures_indistinguishable cfg1 [activeUser] 0
     "nobody@x.com" "whatever" "a@x.com" "wrongpass" activeUser
     (by decide) (by decide) (by decide) (by decide)⟩

/-- Claim C6 — duplicate registration: whenever some stored user's email equals
the lowercased registration email (so emails differing only in letter case
collide, the lookup lowercasing the presented email before comparison),
`register` fails with `DuplicateEmailError` and returns the store unchanged —
no user created, no token persisted. -/
theorem c6_duplicate_email_rejected (cfg : EnvConfig) (store : UserStore)
    (now freshId : Nat) (userData : AuthService.RegisterInput)
    (hdup : ∃ u ∈ store, u.email = jsToLower userData.email) :
    (AuthService.register cfg store now freshId userData).1 =
      Except.error (RegisterError.api duplicateEmailError) ∧
    (AuthService.register cfg store now freshId userData).2 = store := by
  obtain ⟨u, hu, he⟩ := hdup
  cases hfind : UserRepository.findByEmail store userData.email with
  | none =>
    exfalso
    rw [UserRepository.findByEmail] at hfind
    have hne := List.find?_eq_none.mp hfind u hu
    simp only [decide_eq_true_eq] at hne
    exact hne he
  | some v =>
    unfold AuthService.register
    simp [hfind, duplicateEmailError]

/-- Witness for C6: the store holds `a@x.com`; registering `A@X.com` (same
email, different case) is rejected and the store is unchanged. -/
theorem c6_duplicate_email_rejected_witness :
    (∃ u ∈ [activeUser],
      u.email = jsToLower { name := "Eve", email := "A@X.com"
                            password := "Other@123" : AuthService.RegisterInput }.email) ∧
    ((AuthService.register cfg1 [activeUser] 0 9
        { name := "Eve", email := "A@X.com", password := "Other@123" }).1 =
      Except.error (RegisterError.api duplicateEmailError) ∧
    (AuthService.register cfg1 [activeUser] 0 9
        { name := "Eve", email := "A@X.com", password := "Other@123" }).2 = [activeUser]) :=
  ⟨by decide,
   c6_duplicate_email_rejected cfg1 [activeUser] 0 9
     { name := "Eve", email := "A@X.com", password := "Other@123" } (by decide)⟩

/-- The outcome of `AuthService.refreshToken` never depends on the stored
`refreshToken` field: overwriting that field of any user (with anything,
including `null`) leaves the returned result unchanged.  This is the
no-compare-on-refresh behaviour of the source: the presented token is only
checked by signature/expiry and user lookup. -/
theorem refreshToken_fst_ignores_stored_token (cfg : EnvConfig) (s : UserStore)
    (id : Nat) (v : Option SignedToken) (now : Nat) (tok : SignedToken) :
    (AuthService.refreshToken cfg (UserRepository.updateRefreshToken s id v) now tok).1 =
      (AuthService.refreshToken cfg s now tok).1 := by
  unfold AuthService.refreshToken
  simp only [findById_updateRefreshToken]
  cases jwtVerify tok cfg.jwtRefreshSecret now with
  | error e => cases e <;> rfl
  | ok decoded =>
    cases hfind : UserRepository.findById s decoded.userId with
    | none => simp [hfind]
    | some w =>
      by_cases hw : w._id = id <;>
        cases hwact : w.isActive <;>
          simp [hfind, hw, hwact, AuthService.generateAccessToken]

/-- Claim C2 — logout does not revoke the refresh token.  If a user is present
and active and a refresh token was issued to them, then after `logout`
(which nulls the stored `refreshToken`) a refresh call with that same token,
before its expiry, still succeeds and returns a freshly issued access token.
Moreover the refresh operation never compares the presented token against the
stored `refreshToken` value: its outcome is invariant under overwriting that
stored field with anything. -/
theorem c2_logout_does_not_revoke_refresh (cfg : EnvConfig) (store : UserStore)
    (u : StoredUser) (t0 now : Nat)
    (hu : UserRepository.findById store u._id = some u)
    (hact : u.isActive = true)
    (hexp : now < t0 + cfg.jwtRefreshExpiresIn) :
    (AuthService.refreshToken cfg (AuthService.logout store u._id).2 now
        (AuthService.generateRefreshToken cfg u t0)).1 =
      Except.ok (AuthService.generateAccessToken cfg u now) ∧
    ∀ (s : UserStore) (id : Nat) (v v' : Option SignedToken) (tok : SignedToken),
      (AuthService.refreshToken cfg (UserRepository.updateRefreshToken s id v) now tok).1 =
        (AuthService.refreshToken cfg (UserRepository.updateRefreshToken s id v') now tok).1 := by
  constructor
  · have hver : jwtVerify (AuthService.generateRefreshToken cfg u t0)
        cfg.jwtRefreshSecret now = Except.ok { userId := u._id } := by
      unfold AuthService.generateRefreshToken jwtVerify
      simp [Nat.not_le.mpr hexp]
    unfold AuthService.logout AuthService.refreshToken
    simp only [hver, findById_updateRefreshToken, hu]
    simp [hact, AuthService.generateAccessToken]
  · intro s id v v' tok
    rw [refreshToken_fst_ignores_stored_token, refreshToken_fst_ignores_stored_token]

/-- Witness for C2 at a concrete active user and store. -/
theorem c2_logout_does_not_revoke_refresh_witness :
    UserRepository.findById [activeUser] activeUser._id = some activeUser ∧
    activeUser.isActive = true ∧
    (0 : Nat) < 0 + cfg1.jwtRefreshExpiresIn ∧
    (AuthService.refreshToken cfg1 (AuthService.logout [activeUser] activeUser._id).2 0
        (AuthService.generateRefreshToken cfg1 activeUser 0)).1 =
      Except.ok (AuthService.generateAccessToken cfg1 activeUser 0) :=
  ⟨by decide, by decide, by decide,
   (c2_logout_does_not_revoke_refresh cfg1 [activeUser] activeUser 0 0
     (by decide) (by decide) (by decide)).1⟩

/-- Claim C7 — the `authenticate` guard: a missing or non-`Bearer` header fails
with the 401 no-token `UnauthorizedError`; with a verifiable access token it
fails 401 when no user carries the token's userId and 403 when that user is
inactive; on success it attaches exactly `{userId, email, role}`; and on every
path it performs no write to the credential store. -/
theorem c7_authenticate_guard (cfg : EnvConfig) (store : UserStore) (now : Nat)
    (tok : SignedToken) (p : JwtPayload)
    (hver : jwtVerify tok cfg.jwtSecret now = Except.ok p) :
    (authenticate cfg store now none).1 = Except.error noTokenError ∧
    (authenticate cfg store now (some AuthHeaderVal.other)).1 =
      Except.error noTokenError ∧
    (UserRepository.findById store p.userId = none →
      (authenticate cfg store now (some (AuthHeaderVal.bearer tok))).1 =
        Except.error userNotFoundError) ∧
    (∀ u, UserRepository.findById store p.userId = some u → u.isActive = false →
      (authenticate cfg store now (some (AuthHeaderVal.bearer tok))).1 =
        Except.error accountDeactivatedError) ∧
    (∀ u, UserRepository.findById store p.userId = some u → u.isActive = true →
      (authenticate cfg store now (some (AuthHeaderVal.bearer tok))).1 =
        Except.ok { userId := u._id, email := u.email, role := u.role }) ∧
    (∀ header, (authenticate cfg store now header).2 = store) := by
  refine ⟨rfl, rfl, ?_, ?_, ?_, ?_⟩
  · intro hnone
    unfold authenticate
    simp [hver, hnone, userNotFoundError]
  · intro u hu hinact
    unfold authenticate
    simp [hver, hu, hinact, accountDeactivatedError]
  · intro u hu huact
    unfold authenticate
    simp [hver, hu, huact]
  · intro header
    unfold authenticate
    split <;> try rfl
    split <;> try rfl
    split <;> try rfl
    split <;> rfl

/-- Witness for C7: a concrete verifiable token over a one-user store; the
missing-header branch 401s and the success branch attaches the sanitized
identity. -/
theorem c7_authenticate_guard_witness :
    jwtVerify (AuthService.generateAccessToken cfg1 activeUser 0) cfg1.jwtSecret 0 =
      Except.ok { userId := 1, email := some "a@x.com", role := some "user" } ∧
    (authenticate cfg1 [activeUser] 0 none).1 = Except.error noTokenError ∧
    (authenticate cfg1 [activeUser] 0
        (some (AuthHeaderVal.bearer (AuthService.generateAccessToken cfg1 activeUser 0)))).1 =
      Except.ok { userId := activeUser._id, email := activeUser.email
                  role := activeUser.role } :=
  ⟨by decide,
   (c7_authenticate_guard cfg1 [activeUser] 0
     (AuthService.generateAccessToken cfg1 activeUser 0)
     { userId := 1, email := some "a@x.com", role := some "user" } (by decide)).1,
   (c7_authenticate_guard cfg1 [activeUser] 0
     (AuthService.generateAccessToken cfg1 activeUser 0)
     { userId := 1, email := some "a@x.com", role := some "user" } (by decide)).2.2.2.2.1
     activeUser (by decide) (by decide)⟩

/-- Claim C10 — a successful login returns the user record as it was read before
this login: the returned sanitized copy (password and refreshToken fields
removed by construction) carries the pre-login `lastLogin` value, while the
store after the call holds `lastLogin = now` (and the newly persisted refresh
token) for that user. -/
theorem c10_login_returns_stale_lastLogin (cfg : EnvConfig) (store : UserStore)
    (now : Nat) (email password : String) (u : StoredUser)
    (hfind : UserRepository.findByEmail store email = some u)
    (hid : UserRepository.findById store u._id = some u)
    (hact : u.isActive = true)
    (hpw : u.comparePassword password = true) :
    ∃ r, (AuthService.login cfg store now email password).1 = Except.ok r ∧
      r.user = AuthService.sanitizeUser u ∧
      r.user.lastLogin = u.lastLogin ∧
      UserRepository.findById (AuthService.login cfg store now email password).2 u._id =
        some { u with refreshToken := some (AuthService.generateRefreshToken cfg u now)
                      lastLogin := some now } := by
  unfold AuthService.login
  simp only [hfind, hact, hpw, Bool.not_true, Bool.false_eq_true, if_false]
  refine ⟨_, rfl, rfl, rfl, ?_⟩
  simp only [findById_updateLastLogin, findById_updateRefreshToken, hid]
  simp [hact]

/-- Witness for C10: the active user has `lastLogin = none` before the login;
the returned copy still shows `none` while the store records the login
instant. -/
theorem c10_login_returns_stale_lastLogin_witness :
    UserRepository.findByEmail [activeUser] "a@x.com" = some activeUser ∧
    UserRepository.findById [activeUser] activeUser._id = some activeUser ∧
    activeUser.isActive = true ∧
    activeUser.comparePassword "Secret@123" = true ∧
    ∃ r, (AuthService.login cfg1 [activeUser] 5 "a@x.com" "Secret@123").1 =
        Except.ok r ∧
      r.user = AuthService.sanitizeUser activeUser ∧
      r.user.lastLogin = activeUser.lastLogin ∧
      UserRepository.findById
          (AuthService.login cfg1 [activeUser] 5 "a@x.com" "Secret@123").2
          activeUser._id =
        some { activeUser with
                refreshToken := some (AuthService.generateRefreshToken cfg1 activeUser 5)
                lastLogin := some 5 } :=
  ⟨by decide, by decide, by decide, by decide,
   c10_login_returns_stale_lastLogin cfg1 [activeUser] 5 "a@x.com" "Secret@123"
     activeUser (by decide) (by decide) (by decide) (by decide)⟩

end TaskApi
